import Mathlib

/-!
# Verification of `lib/bb/fetch2/crateindex.py` (`CrateIndex.unpack`)

A shallow embedding of the crate-index acquisition-and-transcode pipeline
of the BitBake `crateindex` fetcher, together with theorems settling the
spec claims about it.

Modelling conventions:
* Bytes are `Nat` values (one per byte); UTF-8 encoding uses the core
  function `String.utf8EncodeChar`.
* External collaborators (git commands run through `runfetchcmd`,
  `json.loads`, the LFS helpers of the parent `git.Git` fetcher) are
  modelled as oracle inputs collected in an `Env` record: the relevant
  observable of each collaborator is a field (e.g. the outcome of
  `json.loads` on a line is its `ParseResult`).
* The text content of a file is modelled directly as its `splitlines()`
  decomposition (a `List String` of lines); path joining is modelled as
  `/`-intercalation.
* The destination directory is a state value (`DestState`): `none` for
  absent, `some c` for a directory with contents `c`.
* `bb.utils.prunedir` is modelled from the spec: "a previously existing
  destination directory is destroyed (recursively removed) before
  reconstruction" — pruning maps the state to `none`.
-/

namespace CrateIndex

/-- Byte sequences; each `Nat` is one byte value. -/
abbrev Bytes := List Nat

/-- UTF-8 encoding of a string as a byte list. -/
def utf8 (s : String) : Bytes :=
  (s.data.flatMap String.utf8EncodeChar).map (fun b => b.toNat)

/-- Outcome of `json.loads` on one (space-stripped) line, as observed by
`unpack` (crateindex.py lines 135-141): either a `JSONDecodeError`, or a
parsed value together with its `vers` field when the value is an object
carrying a string under the key `vers`. -/
inductive ParseResult where
  | malformed
  | parsed (vers : Option String)
deriving DecidableEq

/-- `line.replace(' ', '')` (crateindex.py line 132): remove every space
character from the line. -/
def stripSpaces (s : String) : String :=
  String.mk (s.data.filter (fun c => c ≠ ' '))

/-- Loop body for one line of `crate_info.splitlines()` (crateindex.py
lines 131-145): the bytes appended to the open cache file and the
diagnostics emitted (`bb.note` on a JSON decode error). A line that is
empty after space-stripping, fails to parse, or lacks a `vers` field
contributes no bytes. -/
def transcodeLine (parse : String → ParseResult) (filenameWrite : String)
    (line0 : String) : Bytes × List String :=
  let line := stripSpaces line0
  if line = "" then ([], [])
  else
    match parse line with
    | .malformed => ([], ["Invalid json line in " ++ filenameWrite ++ " - ignore"])
    | .parsed none => ([], [])
    | .parsed (some vers) => (utf8 vers ++ [0] ++ utf8 line ++ [0], [])

/-- The record region of one cache file: the loop of crateindex.py
lines 131-145 over all source lines, in order. -/
def transcodeRecords (parse : String → ParseResult) (filenameWrite : String) :
    List String → Bytes × List String
  | [] => ([], [])
  | line :: rest =>
      let r := transcodeLine parse filenameWrite line
      let rs := transcodeRecords parse filenameWrite rest
      (r.1 ++ rs.1, r.2 ++ rs.2)

/-- One whole cache file (crateindex.py lines 127-145): the writes of the
marker byte 1, the UTF-8 encoding of `commit_id`, the NUL byte, then the
per-line records. -/
def transcodeFile (parse : String → ParseResult) (commitId filenameWrite : String)
    (lines : List String) : Bytes × List String :=
  let recs := transcodeRecords parse filenameWrite lines
  ([1] ++ utf8 commitId ++ [0] ++ recs.1, recs.2)

/-- One regular file of the raw snapshot tree extracted into
`tmp_cachedir`, in `os.walk` order: directory components of its location
relative to the tree root, its basename, and its text content as the list
of its lines. -/
structure RawFile where
  dir : List String
  name : String
  lines : List String
deriving DecidableEq

/-- One file written under `destcachedir` (`<destdir>/.cache`): its
mirrored relative location, basename and binary content. -/
structure CacheEntry where
  dir : List String
  name : String
  bytes : Bytes
deriving DecidableEq

/-- `filename_write` (crateindex.py line 124): the destination path of a
raw file, `path_read` with the tree root replaced by `destcachedir`. -/
def writePath (destcachedir : String) (f : RawFile) : String :=
  String.intercalate "/" (destcachedir :: (f.dir ++ [f.name]))

/-- The `os.walk` loop of crateindex.py lines 117-145: every regular file
of the raw tree except those named `config.json` (line 121) is transcoded
to a cache entry at the mirrored relative path; diagnostics accumulate in
walk order. -/
def transcodeTree (parse : String → ParseResult) (commitId destcachedir : String) :
    List RawFile → List CacheEntry × List String
  | [] => ([], [])
  | f :: rest =>
      if f.name = "config.json" then transcodeTree parse commitId destcachedir rest
      else
        let r := transcodeFile parse commitId (writePath destcachedir f) f.lines
        let rs := transcodeTree parse commitId destcachedir rest
        (⟨f.dir, f.name, r.1⟩ :: rs.1, r.2 ++ rs.2)

/-- The oracle inputs of one `unpack` invocation: each field is the
observable behaviour of one external collaborator of crateindex.py. -/
structure Env where
  /-- `not self.clonedir_need_update(ud, d)` (line 74). -/
  clonedirUpToDate : Bool
  /-- `ud.clonedir` (line 83). -/
  clonedir : String
  /-- `ud.shallow` (line 86). -/
  shallow : Bool
  /-- `os.path.exists(ud.fullshallow)` (line 87). -/
  fullshallowExists : Bool
  /-- `ud.fullshallow` (line 92). -/
  fullshallow : String
  /-- `ud.url` (line 97). -/
  url : String
  /-- `self._need_lfs(ud)` (line 65). -/
  needLfs : Bool
  /-- `self._contains_lfs(ud, d, destdir)` (line 103). -/
  containsLfs : Bool
  /-- `self._find_git_lfs(d)` (line 104). -/
  findGitLfs : Bool
  /-- `self._get_repo_url(ud)` (line 99). -/
  repourl : String
  /-- `ud.revisions[ud.names[0]]` (line 61). -/
  commitId : String
  /-- `destcachedir` (line 59). -/
  destcachedir : String
  /-- The raw tree placed in `tmp_cachedir` by whichever acquisition
  strategy succeeds (`git archive | tar -x` or `tar -xzf`, lines 80/89);
  both strategies yield the repository contents at the target revision. -/
  snapshot : List RawFile
  /-- Outcome of `json.loads` per line. -/
  parse : String → ParseResult

/-- Contents of the destination directory. -/
structure DirContents where
  /-- Opaque names of entries present before this invocation. -/
  preexisting : List String
  /-- Whether a git repository was initialised here (`git init` +
  `git fetch`, lines 77-78). -/
  gitScaffold : Bool
  /-- The files under `.cache`. -/
  cache : List CacheEntry
  /-- Whether `.last-updated` exists (line 149). -/
  marker : Bool
deriving DecidableEq

/-- Destination directory state: `none` when the directory is absent. -/
abbrev DestState := Option DirContents

/-- Errors raised by `unpack`: `bb.fetch2.UnpackError(msg, url)` (line 97)
and `bb.fetch2.FetchError(msg)` (line 105). -/
inductive PipeError where
  | unpackError (msg url : String)
  | fetchError (msg : String)
deriving DecidableEq

/-- Result of an invocation: normal return of `True`, or a raised error. -/
inductive Outcome where
  | ok
  | err (e : PipeError)
deriving DecidableEq

/-- Result of the acquisition block, crateindex.py lines 70-97:
`source_found`, the accumulated `source_error` list, whether the shallow
branch (lines 86-92) was entered, and the destination state after the
block. -/
structure AcqResult where
  found : Bool
  errors : List String
  shallowTried : Bool
  dest : DestState
deriving Inhabited

/-- The acquisition block (lines 70-94): try the mirror clone directory
first (lines 73-83: `mkdirhier destdir`, `git init`, `git fetch`,
`git archive | tar -x` into the scratch directory); only if that fails,
try the shallow bundle (lines 85-94: `tar -xzf` into the scratch
directory, touching the destination not at all). -/
def acquire (env : Env) (dest : DestState) : AcqResult :=
  let m : AcqResult :=
    if env.clonedirUpToDate then
      { found := true, errors := [], shallowTried := false,
        dest := some { preexisting := [], gitScaffold := true, cache := [], marker := false } }
    else
      { found := false,
        errors := ["clone directory not available or not up to date: " ++ env.clonedir],
        shallowTried := false, dest := dest }
  if m.found then m
  else if env.shallow then
    if env.fullshallowExists then
      { m with found := true, shallowTried := true }
    else
      { m with errors := m.errors ++ ["shallow clone not available: " ++ env.fullshallow],
               shallowTried := true }
  else
    { m with errors := m.errors ++ ["shallow clone not enabled"] }

/-- Observable result of one `unpack` invocation. `tmpCleaned` records
whether `tmp_cachedir.cleanup()` (line 146) ran before control returned;
`lfsAdvisory` is the `bb.note` of line 107; `diags` are the `bb.note`
diagnostics of line 138 in emission order. -/
structure RunResult where
  dest : DestState
  tmpCleaned : Bool
  lfsAdvisory : Option String
  diags : List String
  shallowTried : Bool
  outcome : Outcome
deriving DecidableEq

/-- `CrateIndex.unpack` (crateindex.py lines 48-151) as a state
transformer on the destination directory. Steps, in source order: prune a
pre-existing destination (lines 62-63, `bb.utils.prunedir`, modelled from
the spec as recursive removal); the acquisition block (lines 70-97,
raising `UnpackError` with the `"; "`-joined reasons when nothing was
found); the LFS guard (lines 103-107); the transcode walk (lines 117-145,
which creates the destination tree when the shallow path left it absent,
via `bb.utils.mkdirhier` on line 119); `tmp_cachedir.cleanup()`
(line 146); `touch .last-updated` (line 149). -/
def unpack (env : Env) (dest0 : DestState) : RunResult :=
  let d1 : DestState := if dest0.isSome then none else dest0
  let a := acquire env d1
  if a.found = false then
    { dest := a.dest, tmpCleaned := false, lfsAdvisory := none, diags := [],
      shallowTried := a.shallowTried,
      outcome := .err (.unpackError
        ("No up to date source found: " ++ String.intercalate "; " a.errors) env.url) }
  else if env.containsLfs && env.needLfs && !env.findGitLfs then
    { dest := a.dest, tmpCleaned := false, lfsAdvisory := none, diags := [],
      shallowTried := a.shallowTried,
      outcome := .err (.fetchError
        ("Repository " ++ env.repourl ++
         " has LFS content, install git-lfs on host to download (or set lfs=0 to ignore it)")) }
  else
    let advisory : Option String :=
      if env.containsLfs && !env.needLfs then
        some ("Repository " ++ env.repourl ++ " has LFS content but it is not being fetched")
      else none
    let t := transcodeTree env.parse env.commitId env.destcachedir env.snapshot
    let base : DirContents :=
      match a.dest with
      | some c => c
      | none => { preexisting := [], gitScaffold := false, cache := [], marker := false }
    { dest := some { base with cache := t.1, marker := true },
      tmpCleaned := true, lfsAdvisory := advisory, diags := t.2,
      shallowTried := a.shallowTried, outcome := .ok }

/-- Spec-side shape of one emitted record (spec sections 6 and 8): the
UTF-8 bytes of the version string, a NUL byte, the UTF-8 bytes of the
space-stripped line, a NUL byte. -/
def recordSpec (vers strippedLine : String) : Bytes :=
  utf8 vers ++ [0] ++ utf8 strippedLine ++ [0]

/-- Spec-side record contributed by one source line: `none` when the line
is blank after space-stripping, malformed, or lacks a `vers` field. -/
def lineRecordSpec (parse : String → ParseResult) (line : String) : Option Bytes :=
  let l := stripSpaces line
  if l = "" then none
  else
    match parse l with
    | .parsed (some v) => some (recordSpec v l)
    | _ => none

/-- Spec-side shape of the cache-file header: byte `0x01`, the UTF-8 bytes
of the revision identifier, byte `0x00`. -/
def headerSpec (commitId : String) : Bytes :=
  1 :: (utf8 commitId ++ [0])

/-- The bytes one line contributes are exactly described by
`lineRecordSpec`. -/
theorem transcodeLine_fst (parse : String → ParseResult) (fw line : String) :
    (transcodeLine parse fw line).1 = (lineRecordSpec parse line).getD [] := by
  unfold transcodeLine lineRecordSpec
  by_cases h : stripSpaces line = ""
  · simp [h]
  · cases hp : parse (stripSpaces line) with
    | malformed => simp [h, hp]
    | parsed v => cases v <;> simp [h, hp, recordSpec]

/-- The record region is the in-order concatenation of the per-line
records. -/
theorem transcodeRecords_fst (parse : String → ParseResult) (fw : String) :
    ∀ lines : List String,
      (transcodeRecords parse fw lines).1 =
        (lines.filterMap (lineRecordSpec parse)).flatten
  | [] => rfl
  | l :: rest => by
      simp only [transcodeRecords, List.filterMap_cons]
      rw [transcodeRecords_fst parse fw rest, transcodeLine_fst]
      cases lineRecordSpec parse l <;> simp

/-- Record emission distributes over splitting the line list. -/
theorem transcodeRecords_fst_append (parse : String → ParseResult) (fw : String)
    (l1 l2 : List String) :
    (transcodeRecords parse fw (l1 ++ l2)).1 =
      (transcodeRecords parse fw l1).1 ++ (transcodeRecords parse fw l2).1 := by
  induction l1 with
  | nil => simp [transcodeRecords]
  | cons a t ih => simp [transcodeRecords, ih]

/-- Cache-entry emission distributes over splitting the walked tree. -/
theorem transcodeTree_fst_append (parse : String → ParseResult) (cid dcd : String)
    (t1 t2 : List RawFile) :
    (transcodeTree parse cid dcd (t1 ++ t2)).1 =
      (transcodeTree parse cid dcd t1).1 ++ (transcodeTree parse cid dcd t2).1 := by
  induction t1 with
  | nil => simp [transcodeTree]
  | cons f t ih =>
      by_cases h : f.name = "config.json" <;> simp [transcodeTree, h, ih]

/-- Every emitted cache entry comes from a raw file that is in the tree
and is not named `config.json`, and carries the transcoding of that
file. -/
theorem transcodeTree_mem (parse : String → ParseResult) (cid dcd : String) :
    ∀ (tree : List RawFile) (e : CacheEntry),
      e ∈ (transcodeTree parse cid dcd tree).1 →
      ∃ f, f ∈ tree ∧ f.name ≠ "config.json" ∧
        e = ⟨f.dir, f.name, (transcodeFile parse cid (writePath dcd f) f.lines).1⟩
  | [], e => by intro h; cases h
  | f :: rest, e => by
      intro h
      by_cases hn : f.name = "config.json"
      · simp only [transcodeTree, hn, if_pos] at h
        obtain ⟨g, hg, hgn, hge⟩ := transcodeTree_mem parse cid dcd rest e h
        exact ⟨g, List.mem_cons_of_mem _ hg, hgn, hge⟩
      · simp only [transcodeTree, hn, if_neg, List.mem_cons, not_false_iff] at h
        rcases h with h | h
        · exact ⟨f, List.mem_cons_self _ _, hn, h⟩
        · obtain ⟨g, hg, hgn, hge⟩ := transcodeTree_mem parse cid dcd rest e h
          exact ⟨g, List.mem_cons_of_mem _ hg, hgn, hge⟩

/-- The result of `unpack` does not depend on the initial destination
state: a pre-existing destination is pruned away first (crateindex.py
lines 62-63). -/
theorem unpack_init_independent (env : Env) (dest0 : DestState) :
    unpack env dest0 = unpack env none := by
  cases dest0 <;> rfl

/-- When the final destination is a directory, its `.cache` content is
either empty (the run failed after the mirror path initialised the
directory) or exactly the transcoding of the snapshot. -/
theorem unpack_dest_cache (env : Env) (dest0 : DestState) (c : DirContents)
    (h : (unpack env dest0).dest = some c) :
    c.cache = [] ∨
      c.cache = (transcodeTree env.parse env.commitId env.destcachedir env.snapshot).1 := by
  rw [unpack_init_independent] at h
  cases hc : env.clonedirUpToDate <;> cases hs : env.shallow <;>
    cases hf : env.fullshallowExists <;> cases hl : env.containsLfs <;>
    cases hn : env.needLfs <;> cases hg : env.findGitLfs <;>
    simp only [unpack, acquire, hc, hs, hf, hl, hn, hg, Bool.false_and, Bool.true_and,
      Bool.and_false, Bool.and_true, Bool.not_false, Bool.not_true, if_true, if_false,
      Option.isSome_none, Bool.false_eq_true, ite_false, ite_true, Option.some.injEq,
      reduceCtorEq] at h <;>
    first
      | exact absurd h (by simp)
      | (rw [← h]; first | exact Or.inl rfl | exact Or.inr rfl)

/-- C2: for every source index file, the bytes written after the header
are exactly the in-order concatenation, over the source lines, of the
records of the qualifying lines: a line that after space removal is
non-empty, parses as JSON and carries a `vers` field contributes the
UTF-8 bytes of the version string, one NUL, the UTF-8 bytes of the
space-stripped line, one NUL, and nothing follows the final NUL of the
last record. -/
theorem transcodeFile_record_layout (parse : String → ParseResult)
    (commitId fw : String) (lines : List String) :
    (transcodeFile parse commitId fw lines).1 =
      headerSpec commitId ++ (lines.filterMap (lineRecordSpec parse)).flatten := by
  simp [transcodeFile, transcodeRecords_fst, headerSpec]

/-- C3: every cache file present in the destination directory after a run
begins with byte `0x01`, the UTF-8 bytes of the revision identifier used
for that run, and byte `0x00`, before any record bytes. -/
theorem unpack_cache_header (env : Env) (dest0 : DestState) (c : DirContents)
    (e : CacheEntry) (hdest : (unpack env dest0).dest = some c)
    (he : e ∈ c.cache) :
    ∃ rest, e.bytes = headerSpec env.commitId ++ rest := by
  rcases unpack_dest_cache env dest0 c hdest with hc | hc
  · rw [hc] at he; cases he
  · rw [hc] at he
    obtain ⟨f, _, _, hef⟩ := transcodeTree_mem _ _ _ _ _ he
    refine ⟨(transcodeRecords env.parse (writePath env.destcachedir f) f.lines).1, ?_⟩
    rw [hef]
    simp [transcodeFile, headerSpec]

/-- C7: no cache file named `config.json` is ever present in the
destination directory after a run, even when the raw snapshot tree
contains a file of that name. -/
theorem unpack_excludes_config (env : Env) (dest0 : DestState) (c : DirContents)
    (hdest : (unpack env dest0).dest = some c) :
    ∀ e ∈ c.cache, e.name ≠ "config.json" := by
  intro e he
  rcases unpack_dest_cache env dest0 c hdest with hc | hc
  · rw [hc] at he; cases he
  · rw [hc] at he
    obtain ⟨f, _, hf, hef⟩ := transcodeTree_mem _ _ _ _ _ he
    rw [hef]
    exact hf

/-- C8: running `unpack` a second time against the unchanged snapshot and
revision, starting from the destination state the first run left behind,
reproduces the first run byte for byte: identical cache files, identical
layout, identical outcome. -/
theorem unpack_idempotent (env : Env) (dest0 : DestState) :
    unpack env ((unpack env dest0).dest) = unpack env dest0 := by
  rw [unpack_init_independent env ((unpack env dest0).dest),
    unpack_init_independent env dest0]

/-- Evaluation of `String.intercalate` on a two-element list. -/
theorem intercalate_pair (s a b : String) :
    String.intercalate s [a, b] = a ++ s ++ b := rfl

/-- C1 amended: when both acquisition strategies fail, the destination
directory is absent at the moment the composite error is raised — no
`.cache` tree and no completion marker exist, but pre-existing contents
are not preserved either, because `unpack` prunes a pre-existing
destination before attempting acquisition; the raised error names the
failure reason of each attempted path. -/
theorem unpack_both_fail (env : Env) (dest0 : DestState)
    (hm : env.clonedirUpToDate = false)
    (hs : env.shallow = false ∨ env.fullshallowExists = false) :
    (unpack env dest0).dest = none ∧
    (unpack env dest0).outcome = .err (.unpackError
      ("No up to date source found: " ++
        ("clone directory not available or not up to date: " ++ env.clonedir) ++ "; " ++
        (if env.shallow then "shallow clone not available: " ++ env.fullshallow
         else "shallow clone not enabled")) env.url) := by
  rw [unpack_init_independent]
  rcases hs with hs | hs
  · simp [unpack, acquire, hm, hs, intercalate_pair, String.append_assoc]
  · cases h2 : env.shallow <;>
      simp [unpack, acquire, hm, hs, h2, intercalate_pair, String.append_assoc]

/-- C6: the mirror path is tried first and, when it succeeds, the shallow
branch is never entered; the shallow branch is entered only when the
mirror path is unavailable; when no path yields a snapshot, `unpack`
raises a single error whose message lists, in order, the mirror failure
reason and the shallow failure reason. -/
theorem unpack_ordered_fallback (env : Env) (dest0 : DestState) :
    (env.clonedirUpToDate = true → (unpack env dest0).shallowTried = false) ∧
    ((unpack env dest0).shallowTried = true → env.clonedirUpToDate = false) ∧
    (env.clonedirUpToDate = false → env.shallow = true → env.fullshallowExists = false →
      (unpack env dest0).outcome = .err (.unpackError
        ("No up to date source found: " ++
          ("clone directory not available or not up to date: " ++ env.clonedir) ++ "; " ++
          ("shallow clone not available: " ++ env.fullshallow)) env.url)) ∧
    (env.clonedirUpToDate = false → env.shallow = false →
      (unpack env dest0).outcome = .err (.unpackError
        ("No up to date source found: " ++
          ("clone directory not available or not up to date: " ++ env.clonedir) ++ "; " ++
          "shallow clone not enabled") env.url)) := by
  rw [unpack_init_independent]
  cases hc : env.clonedirUpToDate <;> cases hs : env.shallow <;>
    cases hf : env.fullshallowExists <;> cases hl : env.containsLfs <;>
    cases hn : env.needLfs <;> cases hg : env.findGitLfs <;>
    simp [unpack, acquire, hc, hs, hf, hl, hn, hg, intercalate_pair, String.append_assoc]

/-- C9: after a successful acquisition, LFS content that is required while
the git-lfs tool is missing aborts the run; LFS content with LFS fetching
disabled yields the advisory note and a successful run; without LFS
content neither the error nor the advisory occurs. -/
theorem unpack_lfs_guard (env : Env) (dest0 : DestState)
    (hacq : env.clonedirUpToDate = true ∨
      (env.shallow = true ∧ env.fullshallowExists = true)) :
    (env.containsLfs = true → env.needLfs = true → env.findGitLfs = false →
      (unpack env dest0).outcome = .err (.fetchError
        ("Repository " ++ env.repourl ++
         " has LFS content, install git-lfs on host to download (or set lfs=0 to ignore it)"))) ∧
    (env.containsLfs = true → env.needLfs = false →
      (unpack env dest0).outcome = .ok ∧
      (unpack env dest0).lfsAdvisory =
        some ("Repository " ++ env.repourl ++ " has LFS content but it is not being fetched")) ∧
    (env.containsLfs = false →
      (unpack env dest0).outcome = .ok ∧ (unpack env dest0).lfsAdvisory = none) := by
  rw [unpack_init_independent]
  rcases hacq with hc | ⟨hs, hf⟩
  · cases hl : env.containsLfs <;> cases hn : env.needLfs <;> cases hg : env.findGitLfs <;>
      simp [unpack, acquire, hc, hl, hn, hg]
  · cases hc : env.clonedirUpToDate <;> cases hl : env.containsLfs <;>
      cases hn : env.needLfs <;> cases hg : env.findGitLfs <;>
      simp [unpack, acquire, hc, hs, hf, hl, hn, hg]

/-- C5 amended: the scratch directory holding the raw snapshot is
explicitly released before control returns exactly on the successful exit
path; on the failure exit paths the cleanup call is never reached before
the error propagates. -/
theorem unpack_cleanup_iff_success (env : Env) (dest0 : DestState) :
    (unpack env dest0).tmpCleaned = true ↔ (unpack env dest0).outcome = .ok := by
  rw [unpack_init_independent]
  cases hc : env.clonedirUpToDate <;> cases hs : env.shallow <;>
    cases hf : env.fullshallowExists <;> cases hl : env.containsLfs <;>
    cases hn : env.needLfs <;> cases hg : env.findGitLfs <;>
    simp [unpack, acquire, hc, hs, hf, hl, hn, hg]

/-- C4: a line that is malformed contributes no bytes and one diagnostic
naming the destination file; a line without a `vers` field contributes no
bytes and no diagnostic; in both cases the remaining lines are transcoded
as if the line were absent, and the remaining files of the walk are
transcoded unconditionally. -/
theorem transcode_skip_bad_lines (parse : String → ParseResult)
    (commitId dcd fw line : String) (l1 l2 : List String) (t1 t2 : List RawFile)
    (hne : stripSpaces line ≠ "") :
    (parse (stripSpaces line) = .malformed →
      transcodeLine parse fw line =
        ([], ["Invalid json line in " ++ fw ++ " - ignore"])) ∧
    (parse (stripSpaces line) = .parsed none →
      transcodeLine parse fw line = ([], [])) ∧
    ((parse (stripSpaces line) = .malformed ∨
        parse (stripSpaces line) = .parsed none) →
      (transcodeRecords parse fw (l1 ++ line :: l2)).1 =
        (transcodeRecords parse fw l1).1 ++ (transcodeRecords parse fw l2).1) ∧
    (transcodeTree parse commitId dcd (t1 ++ t2)).1 =
      (transcodeTree parse commitId dcd t1).1 ++ (transcodeTree parse commitId dcd t2).1 := by
  refine ⟨?_, ?_, ?_, transcodeTree_fst_append parse commitId dcd t1 t2⟩
  · intro h; simp [transcodeLine, hne, h]
  · intro h; simp [transcodeLine, hne, h]
  · intro h
    rw [transcodeRecords_fst_append]
    have hl : (transcodeLine parse fw line).1 = [] := by
      rcases h with h | h <;> simp [transcodeLine, hne, h]
    simp [transcodeRecords, hl]

/-- No cache entry carries the location of a raw file that is nowhere in
the walked tree. -/
theorem transcodeTree_filter_nil (parse : String → ParseResult) (cid dcd : String)
    (tree : List RawFile) (p : List String) (n : String)
    (h : ∀ g ∈ tree, ¬(g.dir = p ∧ g.name = n)) :
    (transcodeTree parse cid dcd tree).1.filter
      (fun e => decide (e.dir = p ∧ e.name = n)) = [] := by
  rw [List.filter_eq_nil_iff]
  intro e he
  obtain ⟨g, hg, _, hge⟩ := transcodeTree_mem _ _ _ _ _ he
  subst hge
  simpa using h g hg

/-- A raw file with a unique location in the tree yields exactly one
cache entry at the mirrored location, carrying its transcoding. -/
theorem transcodeTree_filter_eq (parse : String → ParseResult) (cid dcd : String) :
    ∀ (tree : List RawFile) (f : RawFile), f ∈ tree → f.name ≠ "config.json" →
      (tree.map (fun g => (g.dir, g.name))).Nodup →
      (transcodeTree parse cid dcd tree).1.filter
          (fun e => decide (e.dir = f.dir ∧ e.name = f.name))
        = [⟨f.dir, f.name, (transcodeFile parse cid (writePath dcd f) f.lines).1⟩]
  | [], f => by intro h; cases h
  | g :: rest, f => by
      intro hmem hname hnodup
      rw [List.map_cons, List.nodup_cons] at hnodup
      obtain ⟨hhead, hnodup'⟩ := hnodup
      rcases List.mem_cons.mp hmem with rfl | hmem'
      · have hkey : ∀ g' ∈ rest, ¬(g'.dir = f.dir ∧ g'.name = f.name) := by
          rintro g' hg' ⟨h1, h2⟩
          exact hhead (by rw [← h1, ← h2]; exact List.mem_map_of_mem _ hg')
        simp only [transcodeTree]
        rw [if_neg hname]
        simp only [List.filter_cons]
        rw [transcodeTree_filter_nil parse cid dcd rest f.dir f.name hkey]
        simp
      · have hkne : ¬(g.dir = f.dir ∧ g.name = f.name) := by
          rintro ⟨h1, h2⟩
          exact hhead (by rw [h1, h2]; exact List.mem_map_of_mem _ hmem')
        by_cases hg : g.name = "config.json"
        · simp only [transcodeTree]
          rw [if_pos hg]
          exact transcodeTree_filter_eq parse cid dcd rest f hmem' hname hnodup'
        · simp only [transcodeTree]
          rw [if_neg hg]
          simp only [List.filter_cons]
          rw [if_neg (by simp [hkne])]
          exact transcodeTree_filter_eq parse cid dcd rest f hmem' hname hnodup'

/-- C10: every raw file of the snapshot tree not named `config.json`
yields exactly one cache file at the mirrored relative location; when all
of its lines are blank after space removal, malformed, or without a
`vers` field, that cache file consists of the header bytes and nothing
else. -/
theorem transcodeTree_complete (parse : String → ParseResult) (commitId dcd : String)
    (tree : List RawFile) (f : RawFile) (hmem : f ∈ tree)
    (hname : f.name ≠ "config.json")
    (hnodup : (tree.map (fun g => (g.dir, g.name))).Nodup) :
    (transcodeTree parse commitId dcd tree).1.filter
        (fun e => decide (e.dir = f.dir ∧ e.name = f.name))
      = [⟨f.dir, f.name, (transcodeFile parse commitId (writePath dcd f) f.lines).1⟩] ∧
    ((∀ l ∈ f.lines, stripSpaces l = "" ∨ parse (stripSpaces l) = .malformed ∨
        parse (stripSpaces l) = .parsed none) →
      (transcodeFile parse commitId (writePath dcd f) f.lines).1 = headerSpec commitId) := by
  refine ⟨transcodeTree_filter_eq parse commitId dcd tree f hmem hname hnodup, ?_⟩
  intro hall
  rw [transcodeFile_record_layout]
  have hmap : f.lines.filterMap (lineRecordSpec parse) = [] := by
    rw [List.filterMap_eq_nil_iff]
    intro l hl
    rcases hall l hl with h | h | h <;>
      by_cases he : stripSpaces l = "" <;> simp [lineRecordSpec, he, h]
  rw [hmap]
  simp

/-- A parse oracle used by the concrete runs below: the line `a` parses
with version `1.0`, the line `noV` parses without a version field, and
anything else is malformed. -/
def parseStub : String → ParseResult := fun l =>
  if l = "a" then ParseResult.parsed (some "1.0")
  else if l = "noV" then ParseResult.parsed none
  else ParseResult.malformed

/-- A concrete invocation in which both acquisition strategies fail: the
mirror clone directory is stale and the shallow bundle file is absent. -/
def envBothFail : Env :=
  { clonedirUpToDate := false
    clonedir := "/dl/git2/mirror"
    shallow := true
    fullshallowExists := false
    fullshallow := "/dl/shallow.tar.gz"
    url := "crateindex://host/index.git"
    needLfs := false
    containsLfs := false
    findGitLfs := false
    repourl := "https://host/index.git"
    commitId := "abc123"
    destcachedir := "cache"
    snapshot := []
    parse := parseStub }

/-- A destination directory left behind by a previous successful run. -/
def preDest : DirContents :=
  { preexisting := ["stale-cache-entry"], gitScaffold := false, cache := [], marker := true }

/-- A concrete successful invocation via the mirror path, over a snapshot
holding an excluded `config.json` and one package file. -/
def envMirror : Env :=
  { clonedirUpToDate := true
    clonedir := "/dl/git2/mirror"
    shallow := false
    fullshallowExists := false
    fullshallow := "/dl/shallow.tar.gz"
    url := "crateindex://host/index.git"
    needLfs := false
    containsLfs := false
    findGitLfs := false
    repourl := "https://host/index.git"
    commitId := "abc123"
    destcachedir := "cache"
    snapshot := [⟨[], "config.json", ["x"]⟩, ⟨["3", "f"], "foo", [" a ", "bad", ""]⟩]
    parse := parseStub }

/-- The cache entry the run of `envMirror` produces for the file `foo`. -/
def fooEntry : CacheEntry :=
  ⟨["3", "f"], "foo",
    (transcodeFile parseStub "abc123"
      (writePath "cache" ⟨["3", "f"], "foo", [" a ", "bad", ""]⟩) [" a ", "bad", ""]).1⟩

/-- The destination directory the run of `envMirror` produces. -/
def mirrorDest : DirContents :=
  { preexisting := [], gitScaffold := true, cache := [fooEntry], marker := true }

/-- The same successful acquisition with LFS content present, required,
and the git-lfs tool missing. -/
def envLfsFatal : Env :=
  { envMirror with containsLfs := true, needLfs := true, findGitLfs := false }

/-- C1 counterexample: with both strategies failing and a pre-existing
destination directory, the run raises, but the pre-existing contents are
not preserved — `unpack` pruned the destination to absent before
attempting acquisition. -/
theorem unpack_both_fail_prunes_cex :
    (unpack envBothFail (some preDest)).outcome ≠ Outcome.ok ∧
    (unpack envBothFail (some preDest)).dest ≠ some preDest := by
  constructor <;> decide

/-- C5 counterexample: on the acquisition-failure exit path the scratch
directory is not released before the error propagates — the cleanup call
of crateindex.py line 146 is reached only on the success path. -/
theorem unpack_no_cleanup_on_failure_cex :
    (unpack envBothFail none).tmpCleaned = false ∧
    (unpack envBothFail none).outcome ≠ Outcome.ok := by
  constructor <;> decide

/-- C1 witness: the amended statement instantiated at the concrete
failing run. -/
theorem unpack_both_fail_witness :
    (unpack envBothFail (some preDest)).dest = none :=
  (unpack_both_fail envBothFail (some preDest) rfl (Or.inr rfl)).1

/-- C3 witness: the header property instantiated at the cache entry of a
concrete successful run. -/
theorem unpack_cache_header_witness :
    ∃ rest, fooEntry.bytes = headerSpec "abc123" ++ rest :=
  unpack_cache_header envMirror none mirrorDest fooEntry (by rfl) (by simp [mirrorDest])

/-- C4 witness: the skip behaviour instantiated at a concrete malformed
line. -/
theorem transcode_skip_bad_lines_witness :
    transcodeLine parseStub "cache/3/f/foo" " bad " =
      ([], ["Invalid json line in " ++ "cache/3/f/foo" ++ " - ignore"]) ∧
    (transcodeRecords parseStub "cache/3/f/foo" (["a"] ++ " bad " :: ["noV"])).1 =
      (transcodeRecords parseStub "cache/3/f/foo" ["a"]).1 ++
        (transcodeRecords parseStub "cache/3/f/foo" ["noV"]).1 := by
  have h := transcode_skip_bad_lines parseStub "abc123" "cache" "cache/3/f/foo" " bad "
    ["a"] ["noV"] [] [] (by decide)
  exact ⟨h.1 (by decide), h.2.2.1 (Or.inl (by decide))⟩

/-- C5 witness: the amended cleanup statement instantiated at a concrete
successful run. -/
theorem unpack_cleanup_iff_success_witness :
    (unpack envMirror none).tmpCleaned = true :=
  (unpack_cleanup_iff_success envMirror none).mpr (by rfl)

/-- C6 witness: the composite error message instantiated at the concrete
run in which both acquisition paths fail. -/
theorem unpack_ordered_fallback_witness :
    (unpack envBothFail none).outcome = .err (.unpackError
      ("No up to date source found: " ++
        ("clone directory not available or not up to date: " ++ "/dl/git2/mirror") ++ "; " ++
        ("shallow clone not available: " ++ "/dl/shallow.tar.gz")) "crateindex://host/index.git") :=
  (unpack_ordered_fallback envBothFail none).2.2.1 rfl rfl rfl

/-- C7 witness: the exclusion property instantiated at the cache entry of
a concrete run whose snapshot contains a `config.json`. -/
theorem unpack_excludes_config_witness : fooEntry.name ≠ "config.json" :=
  unpack_excludes_config envMirror none mirrorDest (by rfl) fooEntry (by simp [mirrorDest])

/-- C9 witness: the fatal LFS case instantiated at a concrete run. -/
theorem unpack_lfs_guard_witness :
    (unpack envLfsFatal none).outcome = .err (.fetchError
      ("Repository " ++ "https://host/index.git" ++
       " has LFS content, install git-lfs on host to download (or set lfs=0 to ignore it)")) :=
  (unpack_lfs_guard envLfsFatal none (Or.inl rfl)).1 rfl rfl rfl

/-- C10 witness: the completeness property instantiated at the concrete
snapshot of `envMirror`, for a file all of whose lines are blank or
malformed. -/
theorem transcodeTree_complete_witness :
    (transcodeTree parseStub "abc123" "cache"
        [⟨[], "config.json", ["x"]⟩, ⟨["3", "f"], "bar", ["bad", " "]⟩]).1.filter
        (fun e => decide (e.dir = ["3", "f"] ∧ e.name = "bar"))
      = [⟨["3", "f"], "bar",
          (transcodeFile parseStub "abc123"
            (writePath "cache" ⟨["3", "f"], "bar", ["bad", " "]⟩) ["bad", " "]).1⟩] ∧
    (transcodeFile parseStub "abc123"
        (writePath "cache" ⟨["3", "f"], "bar", ["bad", " "]⟩) ["bad", " "]).1 =
      headerSpec "abc123" := by
  have h := transcodeTree_complete parseStub "abc123" "cache"
    [⟨[], "config.json", ["x"]⟩, ⟨["3", "f"], "bar", ["bad", " "]⟩]
    ⟨["3", "f"], "bar", ["bad", " "]⟩ (by simp) (by decide) (by decide)
  exact ⟨h.1, h.2 (by decide)⟩

end CrateIndex
